import Mathlib

/-!
Verification of the chunking utility and deployment submitter of
`monad-pages` (`packages/nextjs/app/page.tsx`), against its specification.

The embedding models JavaScript string semantics where they matter:
`String.prototype.substring(a, b)` clamps both indices into `[0, length]`
and swaps them when the start exceeds the end, and `a || b` on strings
treats the empty string as falsy.
-/

namespace MonadPages

/-- JavaScript `String.prototype.substring (indexStart, indexEnd)` for
non-negative integer arguments: both indices are clamped to `[0, length]`
and swapped when `indexStart` exceeds `indexEnd`; the result is the span
of characters between them. -/
def jsSubstring (str : String) (indexStart indexEnd : Nat) : String :=
  let len := str.length
  let a := min indexStart len
  let b := min indexEnd len
  String.mk ((str.toList.drop (min a b)).take (max a b - min a b))

/-- `chunkString` from `app/page.tsx` lines 20–27:
`numChunks = Math.ceil(str.length / size)`; the loop runs `i` from `0`
to `numChunks - 1` with offset `o = i * size` and stores
`str.substring(o, size)` — the second argument is the constant `size`,
not `o + size`. -/
def chunkString (str : String) (size : Nat) : List String :=
  let numChunks := (str.length + size - 1) / size
  (List.range numChunks).map (fun i => jsSubstring str (i * size) size)

/-- The selected file as the submitter sees it: a name and a MIME type
(`file.name`, `file.type`); its text content arrives through the
asynchronous read, modelled separately. -/
structure UploadFile where
  name : String
  type : String
deriving DecidableEq

/-- A call to the `notification` helper observed during `handleDeploy`,
in program order. -/
inductive Notification where
  | loading (msg : String)
  | error (msg : String)
  | success (msg : String)
deriving DecidableEq

/-- The error object caught by `handleDeploy`: viem errors carry an
optional `shortMessage` besides the standard `message`. -/
structure DeployError where
  shortMessage : Option String
  message : String
deriving DecidableEq

/-- Outcome of the asynchronous `FileReader` read: `onload` with the text
content, or `onerror`. -/
inductive FileReadOutcome where
  | ok (content : String)
  | err
deriving DecidableEq

/-- Outcome of awaiting the `deployPage` contract call: it returns, or it
throws an error (for example a wallet rejection). -/
inductive DeployOutcome where
  | accepted
  | thrown (e : DeployError)
deriving DecidableEq

/-- The arguments handed to the contract-call interface:
`args: [title, contentChunks, file.type]` on `functionName: "deployPage"`. -/
structure DeployCall where
  title : String
  chunks : List String
  contentType : String
deriving DecidableEq

/-- Observable result of one `handleDeploy` run: the notifications raised
in order, whether the file read was started, the contract call made (if
any) with its arguments, and the final values of the `title` and `file`
state fields. -/
structure DeployResult where
  notifications : List Notification
  fileReadStarted : Bool
  deployCall : Option DeployCall
  title : String
  file : Option UploadFile
deriving DecidableEq

/-- `CHUNK_SIZE = 24 * 1024` from `handleDeploy` (24KB chunks). -/
def CHUNK_SIZE : Nat := 24 * 1024

/-- A concrete selected file, used to instantiate the submitter theorems. -/
def sampleFile : UploadFile :=
  { name := "index.html", type := "text/html" }

/-- A concrete wallet-rejection error, used to instantiate the submitter
theorems. -/
def sampleError : DeployError :=
  { shortMessage := some "User rejected the request.",
    message := "User rejected the request. Details: ..." }

/-- JavaScript `error.shortMessage || error.message`: the empty string is
falsy, so it falls back to `message` when `shortMessage` is missing or
empty. -/
def shortOrMessage (e : DeployError) : String :=
  match e.shortMessage with
  | some s => if s = "" then e.message else s
  | none => e.message

/-- `handleDeploy` from `app/page.tsx` lines 37–76, with the two
asynchronous outcomes (file read, contract call) passed in explicitly.
Guards in source order: `if (!file || !title)` raises the first
validation error and returns; `if (!connectedAddress)` raises the second
and returns. Otherwise the read starts; on `onload` the content is
chunked with `CHUNK_SIZE` and `deployPage` is awaited: on success the
success notification fires and `title`/`file` are reset, on a thrown
error the error notification fires and the fields are left as they were;
on `onerror` the read-error notification fires. -/
def handleDeploy (file : Option UploadFile) (title : String)
    (connectedAddress : Option String) (readOutcome : FileReadOutcome)
    (deployOutcome : DeployOutcome) : DeployResult :=
  match file with
  | none =>
      { notifications := [Notification.error "Please provide a title and select a file."],
        fileReadStarted := false, deployCall := none, title := title, file := file }
  | some f =>
    if title = "" then
      { notifications := [Notification.error "Please provide a title and select a file."],
        fileReadStarted := false, deployCall := none, title := title, file := file }
    else if connectedAddress = none then
      { notifications := [Notification.error "Please connect your wallet to deploy."],
        fileReadStarted := false, deployCall := none, title := title, file := file }
    else
      match readOutcome with
      | FileReadOutcome.err =>
          { notifications := [Notification.loading "Reading and preparing your file...",
                              Notification.error "Error reading the selected file."],
            fileReadStarted := true, deployCall := none, title := title, file := file }
      | FileReadOutcome.ok content =>
          let contentChunks := chunkString content CHUNK_SIZE
          let call : DeployCall :=
            { title := title, chunks := contentChunks, contentType := f.type }
          match deployOutcome with
          | DeployOutcome.accepted =>
              { notifications := [Notification.loading "Reading and preparing your file...",
                                  Notification.loading "Please confirm in your wallet...",
                                  Notification.success "Page deployed successfully!"],
                fileReadStarted := true, deployCall := some call,
                title := "", file := none }
          | DeployOutcome.thrown e =>
              { notifications := [Notification.loading "Reading and preparing your file...",
                                  Notification.loading "Please confirm in your wallet...",
                                  Notification.error ("Error: " ++ shortOrMessage e)],
                fileReadStarted := true, deployCall := some call,
                title := title, file := file }

/-- When the end index is at least the whole length, a substring from 0
returns the entire string. -/
theorem jsSubstring_zero_of_le (s : String) (e : Nat) (he : s.length ≤ e) :
    jsSubstring s 0 e = s := by
  have h1 : min 0 s.length = 0 := Nat.zero_min _
  have h2 : min e s.length = s.length := Nat.min_eq_right he
  cases s with
  | mk l =>
    simp only [jsSubstring, h1, h2, Nat.zero_min, Nat.min_zero, Nat.zero_max, Nat.max_zero,
      Nat.sub_zero, List.drop_zero]
    simp [String.toList, String.length, List.take_length]

/-- Claim C1, evaluated at the failing input: the code chunks `"ab"` with
size 1 into `["a", ""]`, whose concatenation is `"a"`, not `"ab"` — the
round-trip property fails because the loop passes the constant `size` as
the substring end index. -/
theorem chunkString_join_counterexample :
    chunkString "ab" 1 = ["a", ""] ∧
    String.join (chunkString "ab" 1) = "a" ∧ ("a" : String) ≠ "ab" := by
  refine ⟨by decide, by decide, by decide⟩

/-- Claim C2, evaluated at the spec scenario input: the code returns
`["hello", "", " worl"]` for `chunkString "hello world" 5`, not the
`["hello", " worl", "d"]` the specification requires. -/
theorem chunkString_hello_world_counterexample :
    chunkString "hello world" 5 = ["hello", "", " worl"] ∧
    chunkString "hello world" 5 ≠ ["hello", " worl", "d"] := by
  refine ⟨by decide, by decide⟩

/-- Claim C3, evaluated at the failing input: `chunkString "abcde" 1`
returns `["a", "", "b", "bc", "bcd"]`, and among its non-last elements
one has length greater than 1 (refuting the `≤ n` reading) and one has
length different from 1 (refuting the `= n` reading). -/
theorem chunkString_chunk_length_counterexample :
    chunkString "abcde" 1 = ["a", "", "b", "bc", "bcd"] ∧
    (∃ c ∈ (chunkString "abcde" 1).dropLast, 1 < c.length) ∧
    (∃ c ∈ (chunkString "abcde" 1).dropLast, c.length ≠ 1) := by
  refine ⟨by decide, by decide, by decide⟩

/-- Claim C5, evaluated at the failing input: the source string `"ab"` is
non-empty, yet the empty string occurs among the chunks produced by the
code. -/
theorem chunkString_empty_chunk_counterexample :
    ("ab" : String) ≠ "" ∧ "" ∈ chunkString "ab" 1 := by
  refine ⟨by decide, by decide⟩

/-- Claim C4: for non-empty content and positive size, the number of
chunks produced is exactly the ceiling of `length / size`, because the
loop allocates and fills `Math.ceil(str.length / size)` slots. -/
theorem chunkString_length_eq_ceil (content : String) (size : Nat)
    (hc : content ≠ "") (hs : 0 < size) :
    (chunkString content size).length = content.length ⌈/⌉ size := by
  simp only [chunkString, List.length_map, List.length_range, Nat.ceilDiv_eq_add_pred_div]

/-- Witness for claim C4 at `content = "abcdef"`, `size = 4`. -/
theorem chunkString_length_eq_ceil_witness :
    ("abcdef" : String) ≠ "" ∧ 0 < 4 ∧
    (chunkString "abcdef" 4).length = ("abcdef" : String).length ⌈/⌉ 4 :=
  ⟨by decide, by decide, chunkString_length_eq_ceil "abcdef" 4 (by decide) (by decide)⟩

/-- Claim C6: on the empty string the chunk count is
`ceil(0 / n) = 0`, so the code returns the empty sequence — one of the
two behaviours the specification allows. -/
theorem chunkString_empty_input (n : Nat) (hn : 0 < n) :
    chunkString "" n = [] ∨ chunkString "" n = [""] := by
  left
  have h : (("" : String).length + n - 1) / n = 0 := by
    apply Nat.div_eq_of_lt
    show 0 + n - 1 < n
    omega
  simp only [chunkString, h, List.range_zero, List.map_nil]

/-- Witness for claim C6 at `n = 7`. -/
theorem chunkString_empty_input_witness :
    0 < 7 ∧ (chunkString "" 7 = [] ∨ chunkString "" 7 = [""]) :=
  ⟨by decide, chunkString_empty_input 7 (by decide)⟩

/-- Claim C10: when the non-empty content fits in a single chunk
(`length ≤ size`), the count is 1 and `substring(0, size)` returns the
whole string, so the result is exactly `[content]`. -/
theorem chunkString_single_chunk (content : String) (size : Nat)
    (hc : content ≠ "") (hs : 0 < size) (hle : content.length ≤ size) :
    chunkString content size = [content] := by
  have hpos : 0 < content.length := by
    cases content with
    | mk l =>
      cases l with
      | nil => exact absurd rfl hc
      | cons c cs => simp [String.length]
  have h1 : (content.length + size - 1) / size = 1 := by
    apply Nat.div_eq_of_lt_le
    · omega
    · omega
  have h2 : List.range 1 = [0] := rfl
  simp only [chunkString, h1, h2, List.map_cons, List.map_nil, Nat.zero_mul]
  rw [jsSubstring_zero_of_le content size hle]

/-- Witness for claim C10 at `content = "abc"`, `size = 5`. -/
theorem chunkString_single_chunk_witness :
    ("abc" : String) ≠ "" ∧ 0 < 5 ∧ ("abc" : String).length ≤ 5 ∧
    chunkString "abc" 5 = ["abc"] :=
  ⟨by decide, by decide, by decide, chunkString_single_chunk "abc" 5 (by decide) (by decide) (by decide)⟩

/-- Claim C7: when the file is missing, the title is empty, or no wallet
address is connected, `handleDeploy` raises exactly one validation error
notification, starts no file read, makes no contract call, and leaves the
`title` and `file` fields unchanged. -/
theorem handleDeploy_precondition_failure (file : Option UploadFile) (title : String)
    (connectedAddress : Option String) (readOutcome : FileReadOutcome)
    (deployOutcome : DeployOutcome)
    (h : file = none ∨ title = "" ∨ connectedAddress = none) :
    ((handleDeploy file title connectedAddress readOutcome deployOutcome).notifications =
        [Notification.error "Please provide a title and select a file."] ∨
      (handleDeploy file title connectedAddress readOutcome deployOutcome).notifications =
        [Notification.error "Please connect your wallet to deploy."]) ∧
    (handleDeploy file title connectedAddress readOutcome deployOutcome).fileReadStarted = false ∧
    (handleDeploy file title connectedAddress readOutcome deployOutcome).deployCall = none ∧
    (handleDeploy file title connectedAddress readOutcome deployOutcome).title = title ∧
    (handleDeploy file title connectedAddress readOutcome deployOutcome).file = file := by
  cases file with
  | none => simp [handleDeploy]
  | some f =>
    by_cases ht : title = ""
    · simp [handleDeploy, ht]
    · have hca : connectedAddress = none := by
        rcases h with h | h | h
        · exact absurd h (by simp)
        · exact absurd h ht
        · exact h
      simp [handleDeploy, ht, hca]

/-- Witness for claim C7: no file selected, a non-empty title, a
connected wallet. -/
theorem handleDeploy_precondition_failure_witness :
    ((handleDeploy none "My Page" (some "0xabc") (FileReadOutcome.ok "body")
        DeployOutcome.accepted).notifications =
        [Notification.error "Please provide a title and select a file."] ∨
      (handleDeploy none "My Page" (some "0xabc") (FileReadOutcome.ok "body")
        DeployOutcome.accepted).notifications =
        [Notification.error "Please connect your wallet to deploy."]) ∧
    (handleDeploy none "My Page" (some "0xabc") (FileReadOutcome.ok "body")
      DeployOutcome.accepted).fileReadStarted = false ∧
    (handleDeploy none "My Page" (some "0xabc") (FileReadOutcome.ok "body")
      DeployOutcome.accepted).deployCall = none ∧
    (handleDeploy none "My Page" (some "0xabc") (FileReadOutcome.ok "body")
      DeployOutcome.accepted).title = "My Page" ∧
    (handleDeploy none "My Page" (some "0xabc") (FileReadOutcome.ok "body")
      DeployOutcome.accepted).file = none :=
  handleDeploy_precondition_failure none "My Page" (some "0xabc") (FileReadOutcome.ok "body")
    DeployOutcome.accepted (Or.inl rfl)

/-- Claim C8: when all preconditions hold, the read delivers content, and
the `deployPage` call returns, `handleDeploy` resets `title` to the empty
string, resets `file` to `none`, and raises the success notification. -/
theorem handleDeploy_success_clears_form (f : UploadFile) (title : String)
    (addr : String) (content : String) (ht : title ≠ "") :
    (handleDeploy (some f) title (some addr) (FileReadOutcome.ok content)
      DeployOutcome.accepted).title = "" ∧
    (handleDeploy (some f) title (some addr) (FileReadOutcome.ok content)
      DeployOutcome.accepted).file = none ∧
    Notification.success "Page deployed successfully!" ∈
      (handleDeploy (some f) title (some addr) (FileReadOutcome.ok content)
        DeployOutcome.accepted).notifications := by
  simp [handleDeploy, ht]

/-- Witness for claim C8 at a concrete submission. -/
theorem handleDeploy_success_clears_form_witness :
    (handleDeploy (some sampleFile) "My Page"
      (some "0xabc") (FileReadOutcome.ok "body") DeployOutcome.accepted).title = "" ∧
    (handleDeploy (some sampleFile) "My Page"
      (some "0xabc") (FileReadOutcome.ok "body") DeployOutcome.accepted).file = none ∧
    Notification.success "Page deployed successfully!" ∈
      (handleDeploy (some sampleFile) "My Page"
        (some "0xabc") (FileReadOutcome.ok "body") DeployOutcome.accepted).notifications :=
  handleDeploy_success_clears_form sampleFile "My Page" "0xabc" "body" (by decide)

/-- Claim C9: when the `deployPage` call throws, `handleDeploy` leaves
`title` and `file` as they were and raises an error notification built
from the error's `shortMessage`, falling back to its `message`. -/
theorem handleDeploy_failure_preserves_form (f : UploadFile) (title : String)
    (addr : String) (content : String) (e : DeployError) (ht : title ≠ "") :
    (handleDeploy (some f) title (some addr) (FileReadOutcome.ok content)
      (DeployOutcome.thrown e)).title = title ∧
    (handleDeploy (some f) title (some addr) (FileReadOutcome.ok content)
      (DeployOutcome.thrown e)).file = some f ∧
    Notification.error ("Error: " ++ shortOrMessage e) ∈
      (handleDeploy (some f) title (some addr) (FileReadOutcome.ok content)
        (DeployOutcome.thrown e)).notifications := by
  simp [handleDeploy, ht]

/-- Witness for claim C9 at a concrete wallet rejection. -/
theorem handleDeploy_failure_preserves_form_witness :
    (handleDeploy (some sampleFile) "My Page" (some "0xabc") (FileReadOutcome.ok "body")
      (DeployOutcome.thrown sampleError)).title = "My Page" ∧
    (handleDeploy (some sampleFile) "My Page" (some "0xabc") (FileReadOutcome.ok "body")
      (DeployOutcome.thrown sampleError)).file = some sampleFile ∧
    Notification.error ("Error: " ++ shortOrMessage sampleError) ∈
      (handleDeploy (some sampleFile) "My Page" (some "0xabc") (FileReadOutcome.ok "body")
        (DeployOutcome.thrown sampleError)).notifications :=
  handleDeploy_failure_preserves_form sampleFile "My Page" "0xabc" "body" sampleError (by decide)

end MonadPages
